import Mathlib

/-!
# Verification of the survival-companion core

Shallow embedding of the boot orchestrator and power/state management core
of the repository (`personas/survival/survival_persona.py` and the state
assignments performed by the web layer in `app.py`).

Modelling conventions:
* Python exceptions are modelled with `Except`/total functions: a Python
  function that catches internally and cannot raise to its caller is a total
  Lean function.
* `time.time()` is modelled by a natural-number wall clock carried in the
  `Persona` record; every call of `time.sleep` advances it, so successive
  reads are monotone (milliseconds: `time.sleep(0.3)` advances by 300).
* Logging calls of interest (`logger.warning` in `set_battery_level`) and the
  callback notifications (`_notify_state_change`, `_notify_boot_progress`)
  are modelled as an `Event` trace returned next to the new state.
* Only the `simulate=True` branch of each boot step is modelled (the branch
  taken by `boot(simulate=True)`, which is also the branch exercised by
  `app.py`); the real-hardware branches need drivers that are outside the
  repository.
-/

namespace Survival

/-- `SystemState` enum of `survival_persona.py` (lines 31-40). -/
inductive SystemState where
  | BOOTING
  | INITIALIZING
  | READY
  | ACTIVE_VOICE
  | ACTIVE_VISION
  | EMERGENCY
  | LOW_POWER
  | SHUTTING_DOWN
deriving DecidableEq

/-- The `.value` string of each `SystemState` member. -/
def SystemState.value : SystemState → String
  | .BOOTING => "booting"
  | .INITIALIZING => "initializing"
  | .READY => "ready"
  | .ACTIVE_VOICE => "active_voice"
  | .ACTIVE_VISION => "active_vision"
  | .EMERGENCY => "emergency"
  | .LOW_POWER => "low_power"
  | .SHUTTING_DOWN => "shutting_down"

/-- `MemoryState` enum of `survival_persona.py` (lines 43-48). -/
inductive MemoryState where
  | IDLE
  | FAST_LLM
  | MEDICAL_LLM
  | VISION_ACTIVE
deriving DecidableEq

/-- The `.value` string of each `MemoryState` member. -/
def MemoryState.value : MemoryState → String
  | .IDLE => "idle"
  | .FAST_LLM => "fast_llm"
  | .MEDICAL_LLM => "medical_llm"
  | .VISION_ACTIVE => "vision_active"

/-- `BootStatus` dataclass (lines 51-66); timestamps are clock readings. -/
structure BootStatus where
  display_initialized : Bool := false
  sensors_initialized : Bool := false
  gps_initialized : Bool := false
  i2c_devices_detected : List String := []
  llm_warming_up : Bool := false
  llm_ready : Bool := false
  wake_word_active : Bool := false
  dashboard_ready : Bool := false
  battery_level : Int := 100
  gps_fix : Bool := false
  boot_start_time : Nat := 0
  boot_complete_time : Nat := 0
  errors : List String := []
deriving DecidableEq

/-- `SensorStatus` dataclass (lines 69-88). The float position fields
(`latitude`, `longitude`, `altitude`) are modelled as integers: the core
never computes with them, it only stores the default `0.0`. -/
structure SensorStatus where
  max30102_connected : Bool := false
  mlx90614_connected : Bool := false
  bme280_connected : Bool := false
  gps_connected : Bool := false
  gps_fix : Bool := false
  latitude : Int := 0
  longitude : Int := 0
  altitude : Int := 0
  camera_ready : Bool := false
  adc_ready : Bool := false
deriving DecidableEq

/-- The configuration mapping, flattened over the recognized nested keys
(spec section 3; the source reads it with chained `dict.get` calls carrying
inline fall-back defaults). `none` models an absent key, so the empty record
`\x7b\x7d` is Python's `self.config = \x7b\x7d`. -/
structure Config where
  system_persona_name : Option String := none
  system_version : Option String := none
  memory_max_ram_usage_mb : Option Int := none
  voice_wake_words : Option (List String) := none
  hardware_display_enabled : Option Bool := none
  power_low_battery_threshold : Option Int := none
  power_critical_battery_threshold : Option Int := none
deriving DecidableEq

/-- `_use_default_config` (lines 163-170): the built-in default configuration.
Note that it carries no `power` section, so the power thresholds resolve
through the inline `.get` defaults 20/10. -/
def default_config : Config :=
  { system_persona_name := some "Survival Companion"
  , system_version := some "1.0.0"
  , memory_max_ram_usage_mb := some 7500
  , voice_wake_words := some ["survival", "companion"]
  , hardware_display_enabled := some true
  , power_low_battery_threshold := none
  , power_critical_battery_threshold := none }

/-- `config.get("power", \x7b\x7d).get("low_battery_threshold", 20)` (line 425). -/
def Config.lowThresholdD (c : Config) : Int :=
  c.power_low_battery_threshold.getD 20

/-- `config.get("power", \x7b\x7d).get("critical_battery_threshold", 10)` (line 426). -/
def Config.critThresholdD (c : Config) : Int :=
  c.power_critical_battery_threshold.getD 10

/-- `config.get("voice", \x7b\x7d).get("wake_words", ["survival", "companion"])` (line 345). -/
def Config.wakeWordsD (c : Config) : List String :=
  c.voice_wake_words.getD ["survival", "companion"]

/-- The state of the file at `config_path` as `_load_config` observes it:
absent, present but unparseable (`yaml.safe_load` raises), or present and
parsed to a configuration mapping. -/
inductive ConfigFile where
  | absent
  | malformed
  | content (c : Config)
deriving DecidableEq

/-- `_load_config` (lines 146-161): returns the resulting configuration and
the boolean result. Totality of this function is the "never raises to the
caller" behaviour: every branch, including the `except` branch, returns. -/
def load_config : ConfigFile → Config × Bool
  | .absent => (default_config, true)
  | .malformed => (default_config, true)
  | .content c => (c, true)

/-- The mutable fields of a `SurvivalPersona` instance that the core reads or
writes, plus the wall clock (see the module docstring). `__init__`
(lines 108-133) produces `Persona.init`. -/
structure Persona where
  config : Config
  state : SystemState
  memory_state : MemoryState
  boot_status : BootStatus
  sensor_status : SensorStatus
  clock : Nat
deriving DecidableEq

/-- `SurvivalPersona.__init__`: empty config, state BOOTING, memory IDLE,
default status records. -/
def Persona.init : Persona :=
  { config := {}
  , state := SystemState.BOOTING
  , memory_state := MemoryState.IDLE
  , boot_status := {}
  , sensor_status := {}
  , clock := 0 }

/-- The dictionary returned by `get_status` (lines 365-390), field for field. -/
structure Status where
  state : String
  memory_state : String
  bs_display : Bool
  bs_sensors : Bool
  bs_gps : Bool
  bs_i2c_devices : List String
  bs_llm_ready : Bool
  bs_wake_word : Bool
  bs_dashboard : Bool
  bs_battery : Int
  bs_gps_fix : Bool
  bs_errors : List String
  sen_max30102 : Bool
  sen_mlx90614 : Bool
  sen_bme280 : Bool
  sen_gps : Bool
  sen_camera : Bool
  is_ready : Bool
deriving DecidableEq

/-- `get_status` (lines 365-390). -/
def get_status (p : Persona) : Status :=
  { state := p.state.value
  , memory_state := p.memory_state.value
  , bs_display := p.boot_status.display_initialized
  , bs_sensors := p.boot_status.sensors_initialized
  , bs_gps := p.boot_status.gps_initialized
  , bs_i2c_devices := p.boot_status.i2c_devices_detected
  , bs_llm_ready := p.boot_status.llm_ready
  , bs_wake_word := p.boot_status.wake_word_active
  , bs_dashboard := p.boot_status.dashboard_ready
  , bs_battery := p.boot_status.battery_level
  , bs_gps_fix := p.boot_status.gps_fix
  , bs_errors := p.boot_status.errors
  , sen_max30102 := p.sensor_status.max30102_connected
  , sen_mlx90614 := p.sensor_status.mlx90614_connected
  , sen_bme280 := p.sensor_status.bme280_connected
  , sen_gps := p.sensor_status.gps_connected
  , sen_camera := p.sensor_status.camera_ready
  , is_ready := decide (p.state = SystemState.READY) }

/-- Observable effects of a call: a state-change notification delivered with
a full status snapshot (`_notify_state_change`), a boot-progress notification
delivered with the step name and the live `BootStatus` (`_notify_boot_progress`),
or a warning log line (`logger.warning`). -/
inductive Event where
  | stateChange (status : Status)
  | bootProgress (step : String) (bs : BootStatus)
  | warn (msg : String)
deriving DecidableEq

/-- Whether an event is a state-change notification. -/
def Event.isStateChange : Event → Bool
  | .stateChange _ => true
  | _ => false

/-- Number of state-change notifications in a trace. -/
def countStateChanges (evs : List Event) : Nat :=
  (evs.filter Event.isStateChange).length

/-- The step names of the boot-progress notifications of a trace, in order. -/
def progressLabels (evs : List Event) : List String :=
  evs.filterMap fun e =>
    match e with
    | .bootProgress s _ => some s
    | _ => none

/-- `max(0, min(100, level))` (line 423). -/
def clampLevel (level : Int) : Int :=
  max 0 (min 100 level)

/-- The low-battery threshold `set_battery_level` reads (line 425). -/
def lowThreshold (p : Persona) : Int :=
  p.config.lowThresholdD

/-- The critical-battery threshold `set_battery_level` reads (line 426). -/
def critThreshold (p : Persona) : Int :=
  p.config.critThresholdD

/-- `set_battery_level` (lines 421-436): clamp and store the level, then
compare against the configured thresholds.  At or below critical: warn only
(when not in EMERGENCY) and change no state.  Otherwise at or below low:
when the state is not already LOW_POWER, warn, assign LOW_POWER and notify
state callbacks (with the post-assignment snapshot). -/
def set_battery_level (p0 : Persona) (level : Int) : Persona × List Event :=
  let p := { p0 with boot_status := { p0.boot_status with battery_level := clampLevel level } }
  if p.boot_status.battery_level ≤ critThreshold p then
    if p.state ≠ SystemState.EMERGENCY then
      (p, [Event.warn ("CRITICAL BATTERY: " ++ toString level ++ "% - Emergency beacon only")])
    else
      (p, [])
  else if p.boot_status.battery_level ≤ lowThreshold p then
    if p.state ≠ SystemState.LOW_POWER then
      let p1 := { p with state := SystemState.LOW_POWER }
      (p1, [Event.warn ("LOW BATTERY: " ++ toString level ++ "% - Reducing features"),
            Event.stateChange (get_status p1)])
    else
      (p, [])
  else
    (p, [])

/-- `shutdown` (lines 438-450): assign SHUTTING_DOWN, notify, drop to memory
state IDLE. -/
def shutdown (p0 : Persona) : Persona × List Event :=
  let p1 := { p0 with state := SystemState.SHUTTING_DOWN }
  let ev := Event.stateChange (get_status p1)
  let p2 := { p1 with memory_state := MemoryState.IDLE }
  (p2, [ev])

/-- `api_emergency_activate` in `app.py` (lines 229-242): a direct field
assignment `persona.state = SystemState.EMERGENCY` with no guard and no
`_notify_state_change` call, hence the empty event trace. -/
def api_emergency_activate (p : Persona) : Persona × List Event :=
  ({ p with state := SystemState.EMERGENCY }, [])

/-- `api_emergency_deactivate` in `app.py` (lines 245-251): a direct field
assignment `persona.state = SystemState.READY`, no guard, no notification. -/
def api_emergency_deactivate (p : Persona) : Persona × List Event :=
  ({ p with state := SystemState.READY }, [])

/-- The eight boot steps, in the order of the `steps` list of `boot`
(lines 194-203).  The spec's canonical names for them are, in the same
order: load-configuration, init-display, scan-bus-devices, init-sensors,
init-gps, warm-llm, activate-wake-word, load-dashboard. -/
inductive Step where
  | loadConfiguration
  | initDisplay
  | scanBusDevices
  | initSensors
  | initGps
  | warmLlm
  | activateWakeWord
  | loadDashboard
deriving DecidableEq

/-- The `step_name` string each step is listed under (lines 194-203). -/
def stepLabel : Step → String
  | .loadConfiguration => "Loading configuration"
  | .initDisplay => "Initializing display"
  | .scanBusDevices => "Scanning I2C devices"
  | .initSensors => "Initializing sensors"
  | .initGps => "Initializing GPS"
  | .warmLlm => "Warming up LLM"
  | .activateWakeWord => "Activating wake word"
  | .loadDashboard => "Loading dashboard"

/-- The `steps` list of `boot` (lines 194-203), in source order. -/
def pipeline : List Step :=
  [Step.loadConfiguration, Step.initDisplay, Step.scanBusDevices, Step.initSensors,
   Step.initGps, Step.warmLlm, Step.activateWakeWord, Step.loadDashboard]

/-- The device labels `_boot_i2c_scan` appends in simulate mode
(lines 256-268): `f"\x7bname\x7d at 0x\x7baddr:02X\x7d"` over the three
expected devices. -/
def i2cExpectedLabels : List String :=
  ["MAX30102 (SpO2/HR) at 0x57",
   "MLX90614 (Temperature) at 0x5A",
   "BME280 (Environment) at 0x76"]

/-- The simulate-mode mutation of each `_boot_*` step function
(lines 235-359), step by step:
* `_boot_load_config` calls `_load_config` on the config file;
* `_boot_display` sets `display_initialized`;
* `_boot_i2c_scan` appends the three device labels and marks the three
  I2C sensors connected;
* `_boot_sensors` sets `sensors_initialized`, `adc_ready`, `camera_ready`;
* `_boot_gps` sets `gps_initialized`, `gps_connected` and leaves
  `gps_fix` false (simulated cold start, line 314);
* `_boot_llm` sleeps 0.5 s, ending with `llm_ready` true and
  `llm_warming_up` false;
* `_boot_wake_word` sets `wake_word_active` (it reads the configured wake
  words only to log them);
* `_boot_dashboard` sets `dashboard_ready`. -/
def runStep (file : ConfigFile) : Step → Persona → Persona
  | .loadConfiguration, p =>
      { p with config := (load_config file).1 }
  | .initDisplay, p =>
      { p with boot_status := { p.boot_status with display_initialized := true } }
  | .scanBusDevices, p =>
      { p with
        boot_status := { p.boot_status with
          i2c_devices_detected := p.boot_status.i2c_devices_detected ++ i2cExpectedLabels }
        sensor_status := { p.sensor_status with
          max30102_connected := true
          mlx90614_connected := true
          bme280_connected := true } }
  | .initSensors, p =>
      { p with
        boot_status := { p.boot_status with sensors_initialized := true }
        sensor_status := { p.sensor_status with adc_ready := true, camera_ready := true } }
  | .initGps, p =>
      { p with
        boot_status := { p.boot_status with gps_initialized := true }
        sensor_status := { p.sensor_status with gps_connected := true, gps_fix := false } }
  | .warmLlm, p =>
      { p with
        clock := p.clock + 500
        boot_status := { p.boot_status with llm_warming_up := false, llm_ready := true } }
  | .activateWakeWord, p =>
      { p with boot_status := { p.boot_status with wake_word_active := true } }
  | .loadDashboard, p =>
      { p with boot_status := { p.boot_status with dashboard_ready := true } }

/-- A fault assignment for the boot pipeline: `faults s = some cause` means
step `s` raises an exception whose string form is `cause` (the `except`
branch of lines 216-220 catches it); `none` means the step runs normally. -/
def noFaults : Step → Option String := fun _ => none

/-- A fault assignment that makes exactly step `s` raise `cause`. -/
def singleFault (s : Step) (cause : String) : Step → Option String :=
  fun t => if t = s then some cause else none

/-- One iteration of the `for step_name, step_func in steps` loop of `boot`
(lines 205-220): notify boot progress (with the step name and the live
`BootStatus`, before anything of the step executes), sleep 0.3 s, then
either run the step's mutation or, when it raises, append the formatted
error message `"Error during \x27<step>\x27: <cause>"` to `errors` and
continue. -/
def bootStep (file : ConfigFile) (faults : Step → Option String)
    (p : Persona) (s : Step) : Persona × List Event :=
  let ev := Event.bootProgress (stepLabel s) p.boot_status
  let p1 := { p with clock := p.clock + 300 }
  match faults s with
  | some cause =>
      ({ p1 with boot_status := { p1.boot_status with
          errors := p1.boot_status.errors ++
            ["Error during \x27" ++ stepLabel s ++ "\x27: " ++ cause] } },
       [ev])
  | none => (runStep file s p1, [ev])

/-- The whole step loop of `boot`, over a list of steps. -/
def bootSteps (file : ConfigFile) (faults : Step → Option String) :
    Persona → List Step → Persona × List Event
  | p, [] => (p, [])
  | p, s :: rest =>
      let r1 := bootStep file faults p s
      let r2 := bootSteps file faults r1.1 rest
      (r2.1, r1.2 ++ r2.2)

/-- `boot` (lines 176-233), simulate branch: record `boot_start_time`, set
state BOOTING and notify, run the eight steps, record `boot_complete_time`,
then return true and transition to READY when `dashboard_ready` holds, or
return false (a boolean report, not an exception) leaving the state as the
pipeline left it.  Note that the source performs no `_notify_state_change`
call on the READY assignment (line 227). -/
def boot (file : ConfigFile) (faults : Step → Option String)
    (p0 : Persona) : Persona × Bool × List Event :=
  let p := { p0 with
    boot_status := { p0.boot_status with boot_start_time := p0.clock }
    state := SystemState.BOOTING }
  let ev0 := Event.stateChange (get_status p)
  let r := bootSteps file faults p pipeline
  let p2 := { r.1 with boot_status := { r.1.boot_status with boot_complete_time := r.1.clock } }
  if p2.boot_status.dashboard_ready then
    ({ p2 with state := SystemState.READY }, true, ev0 :: r.2)
  else
    (p2, false, ev0 :: r.2)

/-- The readiness flag a step is responsible for, read off the final
persona (used to state that a failed step leaves the other flags intact).
`loadConfiguration` has no readiness flag, so it maps to `true`. -/
def stepFlag (p : Persona) : Step → Bool
  | .loadConfiguration => true
  | .initDisplay => p.boot_status.display_initialized
  | .scanBusDevices => p.sensor_status.bme280_connected
  | .initSensors => p.boot_status.sensors_initialized
  | .initGps => p.boot_status.gps_initialized
  | .warmLlm => p.boot_status.llm_ready
  | .activateWakeWord => p.boot_status.wake_word_active
  | .loadDashboard => p.boot_status.dashboard_ready

/-- A registered state callback: an identifier plus its behaviour on a
status snapshot (`Except.error` models the callback raising). -/
structure Observer where
  id : Nat
  run : Status → Except String Unit

/-- The log line `_notify_state_change` produces for a callback outcome:
nothing on success, `"State callback error: <e>"` when it raised. -/
def observerLog : Except String Unit → Option String
  | Except.ok _ => none
  | Except.error e => some ("State callback error: " ++ e)

/-- The `for callback in self._state_callbacks` loop of
`_notify_state_change` (lines 400-407): invoke each callback on the status
snapshot in list order; a raising callback is caught and logged and the
loop continues.  The result records, in invocation order, each invoked
callback's identifier together with its logged error (if any); the
function is total: no callback error propagates. -/
def notify_state_change (cbs : List Observer) (st : Status) :
    List (Nat × Option String) :=
  match cbs with
  | [] => []
  | cb :: rest => (cb.id, observerLog (cb.run st)) :: notify_state_change rest st

/-- A registered boot-progress callback: an identifier plus its behaviour on
the `(step_name, boot_status)` pair it receives (`Except.error` models the
callback raising). -/
structure BootObserver where
  id : Nat
  run : String → BootStatus → Except String Unit

/-- The log line `_notify_boot_progress` produces for a callback outcome:
nothing on success, `"Boot callback error: <e>"` when it raised (line 415). -/
def bootObserverLog : Except String Unit → Option String
  | Except.ok _ => none
  | Except.error e => some ("Boot callback error: " ++ e)

/-- The `for callback in self._boot_callbacks` loop of
`_notify_boot_progress` (lines 409-415): invoke each callback on the step
name and the live `BootStatus`, in list order; a raising callback is caught
and logged and the loop continues.  As for `notify_state_change`, the
result records each invoked callback's identifier with its logged error in
invocation order, and the function is total: no callback error propagates. -/
def notify_boot_progress (cbs : List BootObserver) (step : String)
    (bs : BootStatus) : List (Nat × Option String) :=
  match cbs with
  | [] => []
  | cb :: rest =>
      (cb.id, bootObserverLog (cb.run step bs)) :: notify_boot_progress rest step bs

/-- Number of state-change notifications in a trace whose snapshot reports
state `"ready"`. -/
def readyNotifications (evs : List Event) : Nat :=
  (evs.filter fun e =>
    match e with
    | .stateChange st => st.state == "ready"
    | _ => false).length

/-!
## Helper lemmas
-/

lemma bootStep_events (file : ConfigFile) (faults : Step → Option String)
    (p : Persona) (s : Step) :
    (bootStep file faults p s).2 = [Event.bootProgress (stepLabel s) p.boot_status] := by
  cases h : faults s <;> simp [bootStep, h]

lemma runStep_clock_le (file : ConfigFile) (s : Step) (p : Persona) :
    p.clock ≤ (runStep file s p).clock := by
  cases s <;> simp [runStep]

lemma bootStep_clock_le (file : ConfigFile) (faults : Step → Option String)
    (p : Persona) (s : Step) :
    p.clock ≤ (bootStep file faults p s).1.clock := by
  cases h : faults s
  · simpa [bootStep, h] using
      le_trans (Nat.le_add_right p.clock 300)
        (runStep_clock_le file s { p with clock := p.clock + 300 })
  · simp [bootStep, h]

lemma bootSteps_clock_le (file : ConfigFile) (faults : Step → Option String)
    (p : Persona) (ss : List Step) :
    p.clock ≤ (bootSteps file faults p ss).1.clock := by
  induction ss generalizing p with
  | nil => simp [bootSteps]
  | cons s rest ih =>
      exact le_trans (bootStep_clock_le file faults p s)
        (by simpa [bootSteps] using ih (bootStep file faults p s).1)

lemma runStep_state (file : ConfigFile) (s : Step) (p : Persona) :
    (runStep file s p).state = p.state := by
  cases s <;> rfl

lemma bootStep_state (file : ConfigFile) (faults : Step → Option String)
    (p : Persona) (s : Step) :
    (bootStep file faults p s).1.state = p.state := by
  cases h : faults s <;> simp [bootStep, h, runStep_state]

lemma bootSteps_state (file : ConfigFile) (faults : Step → Option String)
    (p : Persona) (ss : List Step) :
    (bootSteps file faults p ss).1.state = p.state := by
  induction ss generalizing p with
  | nil => rfl
  | cons s rest ih =>
      simpa [bootSteps, ih] using bootStep_state file faults p s

lemma runStep_start_time (file : ConfigFile) (s : Step) (p : Persona) :
    (runStep file s p).boot_status.boot_start_time = p.boot_status.boot_start_time := by
  cases s <;> rfl

lemma bootStep_start_time (file : ConfigFile) (faults : Step → Option String)
    (p : Persona) (s : Step) :
    (bootStep file faults p s).1.boot_status.boot_start_time =
      p.boot_status.boot_start_time := by
  cases h : faults s <;> simp [bootStep, h, runStep_start_time]

lemma bootSteps_start_time (file : ConfigFile) (faults : Step → Option String)
    (p : Persona) (ss : List Step) :
    (bootSteps file faults p ss).1.boot_status.boot_start_time =
      p.boot_status.boot_start_time := by
  induction ss generalizing p with
  | nil => rfl
  | cons s rest ih =>
      simpa [bootSteps, ih] using bootStep_start_time file faults p s

lemma bootSteps_progressLabels (file : ConfigFile) (faults : Step → Option String)
    (p : Persona) (ss : List Step) :
    progressLabels (bootSteps file faults p ss).2 = ss.map stepLabel := by
  induction ss generalizing p with
  | nil => rfl
  | cons s rest ih =>
      simp [bootSteps, progressLabels, List.filterMap_append, bootStep_events]
      simpa [progressLabels] using ih (bootStep file faults p s).1

lemma bootSteps_no_stateChange (file : ConfigFile) (faults : Step → Option String)
    (p : Persona) (ss : List Step) :
    countStateChanges (bootSteps file faults p ss).2 = 0 := by
  induction ss generalizing p with
  | nil => rfl
  | cons s rest ih =>
      simp [bootSteps, countStateChanges, List.filter_append, bootStep_events,
        Event.isStateChange]
      simpa [countStateChanges] using ih (bootStep file faults p s).1

lemma bootSteps_append (file : ConfigFile) (faults : Step → Option String)
    (p : Persona) (l1 l2 : List Step) :
    bootSteps file faults p (l1 ++ l2) =
      ((bootSteps file faults (bootSteps file faults p l1).1 l2).1,
       (bootSteps file faults p l1).2 ++
         (bootSteps file faults (bootSteps file faults p l1).1 l2).2) := by
  induction l1 generalizing p with
  | nil => simp [bootSteps]
  | cons s rest ih => simp [bootSteps, ih]

lemma bootSteps_pipeline_dashboard (file : ConfigFile)
    (faults : Step → Option String) (p : Persona)
    (h : faults Step.loadDashboard = none) :
    (bootSteps file faults p pipeline).1.boot_status.dashboard_ready = true := by
  have hsplit : pipeline =
      [Step.loadConfiguration, Step.initDisplay, Step.scanBusDevices, Step.initSensors,
       Step.initGps, Step.warmLlm, Step.activateWakeWord] ++ [Step.loadDashboard] := rfl
  rw [hsplit, bootSteps_append]
  simp [bootSteps, bootStep, h, runStep]

/-!
## Claim theorems
-/

/-- C4: for every run of `boot()`, the result is `true` if and only if
`dashboard_ready` holds after the pipeline (the result is a boolean, the
function is total — no exception path); the completion timestamp is at
least the start timestamp; on success the final state is READY, and on
failure the final state is BOOTING. -/
theorem boot_returns_dashboard_ready (file : ConfigFile)
    (faults : Step → Option String) (p0 : Persona) :
    (boot file faults p0).2.1 = (boot file faults p0).1.boot_status.dashboard_ready ∧
    (boot file faults p0).1.boot_status.boot_start_time ≤
      (boot file faults p0).1.boot_status.boot_complete_time ∧
    ((boot file faults p0).2.1 = true → (boot file faults p0).1.state = SystemState.READY) ∧
    ((boot file faults p0).2.1 = false → (boot file faults p0).1.state = SystemState.BOOTING) := by
  have hstart := bootSteps_start_time file faults
    { p0 with
      boot_status := { p0.boot_status with boot_start_time := p0.clock }
      state := SystemState.BOOTING } pipeline
  have hclock := bootSteps_clock_le file faults
    { p0 with
      boot_status := { p0.boot_status with boot_start_time := p0.clock }
      state := SystemState.BOOTING } pipeline
  have hstate := bootSteps_state file faults
    { p0 with
      boot_status := { p0.boot_status with boot_start_time := p0.clock }
      state := SystemState.BOOTING } pipeline
  simp only [boot]
  split
  · exact ⟨by simp_all, by simp_all, fun _ => rfl, by simp⟩
  · exact ⟨by simp_all, by simp_all, by simp, fun _ => by simpa using hstate⟩

/-- C4 witness: a concrete successful simulate-mode boot. -/
theorem boot_returns_dashboard_ready_witness :
    (boot ConfigFile.absent noFaults Persona.init).2.1 = true ∧
    (boot ConfigFile.absent noFaults Persona.init).1.state = SystemState.READY :=
  ⟨by decide,
   (boot_returns_dashboard_ready ConfigFile.absent noFaults Persona.init).2.2.1 (by decide)⟩

/-- C6: every `boot()` call emits exactly the eight boot-progress events, in
the fixed pipeline order (shown by the literal list of the eight step
labels), and the progress notification of a step carries the `BootStatus`
as it is before the step's mutation logic executes — it fires strictly
before the step runs. -/
theorem boot_progress_order (file : ConfigFile) (faults : Step → Option String)
    (p : Persona) (s : Step) :
    progressLabels (boot file faults p).2.2 =
      ["Loading configuration", "Initializing display", "Scanning I2C devices",
       "Initializing sensors", "Initializing GPS", "Warming up LLM",
       "Activating wake word", "Loading dashboard"] ∧
    (bootStep file faults p s).2 = [Event.bootProgress (stepLabel s) p.boot_status] := by
  constructor
  · have h := bootSteps_progressLabels file faults
      { p with
        boot_status := { p.boot_status with boot_start_time := p.clock }
        state := SystemState.BOOTING } pipeline
    simp only [boot]
    split <;> simpa [progressLabels, pipeline, stepLabel] using h
  · exact bootStep_events file faults p s

/-- C9: both notification loops — `_notify_state_change` on a status
snapshot and `_notify_boot_progress` on a `(step_name, boot_status)` pair —
invoke every registered observer in registration order: each outcome list
is exactly the registration list mapped to (identifier, logged error); in
particular the observer at any position is invoked with its own outcome
even when observers before it raise, and no observer error propagates to
the triggering operation (both functions are total and carry the caught
errors as data). -/
theorem notify_callbacks_isolate_observers (cbs : List Observer)
    (bcbs : List BootObserver) (st : Status) (step : String) (bs : BootStatus) :
    (notify_state_change cbs st =
      cbs.map (fun cb => (cb.id, observerLog (cb.run st)))) ∧
    (notify_state_change cbs st).map Prod.fst = cbs.map Observer.id ∧
    (∀ l1 cb l2, cbs = l1 ++ cb :: l2 →
      (notify_state_change cbs st)[l1.length]? =
        some (cb.id, observerLog (cb.run st))) ∧
    (notify_boot_progress bcbs step bs =
      bcbs.map (fun cb => (cb.id, bootObserverLog (cb.run step bs)))) ∧
    (notify_boot_progress bcbs step bs).map Prod.fst = bcbs.map BootObserver.id ∧
    (∀ l1 cb l2, bcbs = l1 ++ cb :: l2 →
      (notify_boot_progress bcbs step bs)[l1.length]? =
        some (cb.id, bootObserverLog (cb.run step bs))) := by
  have hmap : notify_state_change cbs st =
      cbs.map (fun cb => (cb.id, observerLog (cb.run st))) := by
    induction cbs with
    | nil => rfl
    | cons cb rest ih => simp [notify_state_change, ih]
  have hbmap : notify_boot_progress bcbs step bs =
      bcbs.map (fun cb => (cb.id, bootObserverLog (cb.run step bs))) := by
    induction bcbs with
    | nil => rfl
    | cons cb rest ih => simp [notify_boot_progress, ih]
  refine ⟨hmap, ?_, ?_, hbmap, ?_, ?_⟩
  · rw [hmap]; simp
  · intro l1 cb l2 hsplit
    subst hsplit
    rw [hmap, List.map_append, List.getElem?_append_right (by simp)]
    simp
  · rw [hbmap]; simp
  · intro l1 cb l2 hsplit
    subst hsplit
    rw [hbmap, List.map_append, List.getElem?_append_right (by simp)]
    simp

/-- C9 witness: in each loop, with a first observer that raises, the second
observer is still invoked, in order, and the raise is logged, not
propagated. -/
theorem notify_callbacks_isolate_observers_witness :
    (notify_state_change
        [⟨1, fun _ => Except.error "boom"⟩, ⟨2, fun _ => Except.ok ()⟩]
        (get_status Persona.init))[([⟨1, fun _ => Except.error "boom"⟩] :
          List Observer).length]? =
      some (2, observerLog (Except.ok ())) ∧
    (notify_boot_progress
        [⟨1, fun _ _ => Except.error "boom"⟩, ⟨2, fun _ _ => Except.ok ()⟩]
        (stepLabel Step.loadConfiguration)
        Persona.init.boot_status)[([⟨1, fun _ _ => Except.error "boom"⟩] :
          List BootObserver).length]? =
      some (2, bootObserverLog (Except.ok ())) :=
  ⟨(notify_callbacks_isolate_observers
      [⟨1, fun _ => Except.error "boom"⟩, ⟨2, fun _ => Except.ok ()⟩]
      [⟨1, fun _ _ => Except.error "boom"⟩, ⟨2, fun _ _ => Except.ok ()⟩]
      (get_status Persona.init) (stepLabel Step.loadConfiguration)
      Persona.init.boot_status).2.2.1
    [⟨1, fun _ => Except.error "boom"⟩] ⟨2, fun _ => Except.ok ()⟩ [] rfl,
   (notify_callbacks_isolate_observers
      [⟨1, fun _ => Except.error "boom"⟩, ⟨2, fun _ => Except.ok ()⟩]
      [⟨1, fun _ _ => Except.error "boom"⟩, ⟨2, fun _ _ => Except.ok ()⟩]
      (get_status Persona.init) (stepLabel Step.loadConfiguration)
      Persona.init.boot_status).2.2.2.2.2
    [⟨1, fun _ _ => Except.error "boom"⟩] ⟨2, fun _ _ => Except.ok ()⟩ [] rfl⟩

/-- C10: after a successful `boot(simulate=True)` from a fresh persona, GPS
is connected but without a fix: `sensor_status.gps_connected` is true while
`sensor_status.gps_fix` and `boot_status.gps_fix` are both false, and
`get_status()` reports `gps_fix` false even though `is_ready` is true. -/
theorem boot_gps_connected_without_fix :
    (boot ConfigFile.absent noFaults Persona.init).2.1 = true ∧
    (boot ConfigFile.absent noFaults Persona.init).1.sensor_status.gps_connected = true ∧
    (boot ConfigFile.absent noFaults Persona.init).1.sensor_status.gps_fix = false ∧
    (boot ConfigFile.absent noFaults Persona.init).1.boot_status.gps_fix = false ∧
    (get_status (boot ConfigFile.absent noFaults Persona.init).1).bs_gps_fix = false ∧
    (get_status (boot ConfigFile.absent noFaults Persona.init).1).is_ready = true := by
  decide

/-- C1 counterexample: with the default thresholds (10/20) the level 15 lies
strictly between critical and low, yet `set_battery_level` moves the state
to LOW_POWER from EMERGENCY and from SHUTTING_DOWN — the source has no
guard excluding those states (lines 432-436), so the state does not remain
unchanged there as the claim requires. -/
theorem low_power_transition_from_emergency_cex :
    critThreshold { Persona.init with state := SystemState.EMERGENCY } < clampLevel 15 ∧
    clampLevel 15 ≤ lowThreshold { Persona.init with state := SystemState.EMERGENCY } ∧
    (set_battery_level { Persona.init with state := SystemState.EMERGENCY } 15).1.state =
      SystemState.LOW_POWER ∧
    (set_battery_level { Persona.init with state := SystemState.SHUTTING_DOWN } 15).1.state =
      SystemState.LOW_POWER := by
  decide

/-- C1 (amended): for every level L with critical < clamped(L) ≤ low,
`set_battery_level(L)` moves the state to LOW_POWER exactly once: the
transition and its single state-change notification fire only when the
current state is not LOW_POWER (a repeated equal call changes nothing and
notifies nothing), and the transition fires from every state other than
LOW_POWER — including EMERGENCY and SHUTTING_DOWN. -/
theorem low_power_transition_exactly_once (p0 : Persona) (L : Int)
    (h1 : critThreshold p0 < clampLevel L) (h2 : clampLevel L ≤ lowThreshold p0) :
    (set_battery_level p0 L).1.state = SystemState.LOW_POWER ∧
    (p0.state ≠ SystemState.LOW_POWER →
      countStateChanges (set_battery_level p0 L).2 = 1) ∧
    (p0.state = SystemState.LOW_POWER → (set_battery_level p0 L).2 = []) ∧
    countStateChanges (set_battery_level (set_battery_level p0 L).1 L).2 = 0 := by
  have hc : ¬ (clampLevel L ≤ p0.config.critThresholdD) := not_le.mpr h1
  have hl : clampLevel L ≤ p0.config.lowThresholdD := h2
  by_cases hs : p0.state = SystemState.LOW_POWER <;>
    simp [set_battery_level, critThreshold, lowThreshold, hc, hl, hs,
      countStateChanges, Event.isStateChange]

/-- C1 witness: level 15 with the default thresholds, from the fresh persona
(state BOOTING). -/
theorem low_power_transition_exactly_once_witness :
    critThreshold Persona.init < clampLevel 15 ∧
    clampLevel 15 ≤ lowThreshold Persona.init ∧
    ((set_battery_level Persona.init 15).1.state = SystemState.LOW_POWER ∧
     (Persona.init.state ≠ SystemState.LOW_POWER →
       countStateChanges (set_battery_level Persona.init 15).2 = 1) ∧
     (Persona.init.state = SystemState.LOW_POWER →
       (set_battery_level Persona.init 15).2 = []) ∧
     countStateChanges (set_battery_level (set_battery_level Persona.init 15).1 15).2 = 0) :=
  ⟨by decide, by decide,
   low_power_transition_exactly_once Persona.init 15 (by decide) (by decide)⟩

/-- C2 counterexample: from SHUTTING_DOWN, the emergency-activate endpoint
(a direct `persona.state = SystemState.EMERGENCY` assignment in `app.py`)
changes the state — SHUTTING_DOWN is not terminal. -/
theorem shutting_down_not_terminal_cex :
    (api_emergency_activate { Persona.init with state := SystemState.SHUTTING_DOWN }).1.state ≠
      SystemState.SHUTTING_DOWN := by
  decide

/-- C2 (amended): SHUTTING_DOWN is not a terminal state: from SHUTTING_DOWN,
emergency activate moves the state to EMERGENCY, emergency deactivate to
READY, a battery update in the low range to LOW_POWER, and `boot()` re-runs
the pipeline and ends READY; only `shutdown()` itself leaves the state at
SHUTTING_DOWN.  No new controller instance is needed to leave the state. -/
theorem shutting_down_not_terminal (p : Persona) (file : ConfigFile)
    (h : p.state = SystemState.SHUTTING_DOWN)
    (hcrit : critThreshold p < 15) (hlow : (15 : Int) ≤ lowThreshold p) :
    (api_emergency_activate p).1.state = SystemState.EMERGENCY ∧
    (api_emergency_deactivate p).1.state = SystemState.READY ∧
    (set_battery_level p 15).1.state = SystemState.LOW_POWER ∧
    (boot file noFaults p).1.state = SystemState.READY ∧
    (shutdown p).1.state = SystemState.SHUTTING_DOWN := by
  refine ⟨rfl, rfl, ?_, ?_, rfl⟩
  · have h15 : clampLevel 15 = (15 : Int) := by decide
    have hc : ¬ (clampLevel 15 ≤ p.config.critThresholdD) := by
      rw [h15]; exact not_le.mpr hcrit
    have hl : clampLevel 15 ≤ p.config.lowThresholdD := by
      rw [h15]; exact hlow
    simp [set_battery_level, critThreshold, lowThreshold, hc, hl, h]
  · have hd := bootSteps_pipeline_dashboard file noFaults
      { p with
        boot_status := { p.boot_status with boot_start_time := p.clock }
        state := SystemState.BOOTING } rfl
    simp only [boot]
    split
    · rfl
    · simp_all

/-- C2 witness: the fresh persona put into SHUTTING_DOWN, default thresholds. -/
theorem shutting_down_not_terminal_witness :
    ({ Persona.init with state := SystemState.SHUTTING_DOWN } : Persona).state =
      SystemState.SHUTTING_DOWN ∧
    ((api_emergency_activate { Persona.init with state := SystemState.SHUTTING_DOWN }).1.state =
       SystemState.EMERGENCY ∧
     (api_emergency_deactivate { Persona.init with state := SystemState.SHUTTING_DOWN }).1.state =
       SystemState.READY ∧
     (set_battery_level { Persona.init with state := SystemState.SHUTTING_DOWN } 15).1.state =
       SystemState.LOW_POWER ∧
     (boot ConfigFile.absent noFaults
        { Persona.init with state := SystemState.SHUTTING_DOWN }).1.state =
       SystemState.READY ∧
     (shutdown { Persona.init with state := SystemState.SHUTTING_DOWN }).1.state =
       SystemState.SHUTTING_DOWN) :=
  ⟨rfl,
   shutting_down_not_terminal { Persona.init with state := SystemState.SHUTTING_DOWN }
     ConfigFile.absent rfl (by decide) (by decide)⟩

/-- C3 counterexample: a successful simulate-mode boot ends in state READY,
but no state-change notification carrying state `"ready"` is ever
delivered (the READY assignment at line 227 has no `_notify_state_change`
call), and the emergency-activate endpoint changes the state with no
notification at all — these transitions are silent. -/
theorem silent_ready_transition_cex :
    (boot ConfigFile.absent noFaults Persona.init).1.state = SystemState.READY ∧
    readyNotifications (boot ConfigFile.absent noFaults Persona.init).2.2 = 0 ∧
    (api_emergency_activate { Persona.init with state := SystemState.READY }).1.state =
      SystemState.EMERGENCY ∧
    (api_emergency_activate { Persona.init with state := SystemState.READY }).2 = [] := by
  decide

/-- C3 (amended): the boot-entry BOOTING assignment, the low-power
transition and `shutdown` each deliver a state-change notification carrying
a full status snapshot, but they are the only notifying transitions:
`boot()` delivers exactly one state-change notification (the entry one, so
the BOOTING-to-READY transition at boot success is silent), and the
emergency activate/deactivate endpoints change the state with no
notification. -/
theorem state_change_notifications (p : Persona) (file : ConfigFile)
    (faults : Step → Option String) (L : Int) :
    (shutdown p).2 =
      [Event.stateChange (get_status { p with state := SystemState.SHUTTING_DOWN })] ∧
    countStateChanges (boot file faults p).2.2 = 1 ∧
    (api_emergency_activate p).2 = [] ∧
    (api_emergency_deactivate p).2 = [] ∧
    (p.state ≠ SystemState.LOW_POWER → critThreshold p < clampLevel L →
      clampLevel L ≤ lowThreshold p →
      (set_battery_level p L).2 =
        [Event.warn ("LOW BATTERY: " ++ toString L ++ "% - Reducing features"),
         Event.stateChange (get_status (set_battery_level p L).1)]) := by
  refine ⟨rfl, ?_, rfl, rfl, ?_⟩
  · have h0 := bootSteps_no_stateChange file faults
      { p with
        boot_status := { p.boot_status with boot_start_time := p.clock }
        state := SystemState.BOOTING } pipeline
    simp only [boot]
    split <;> simpa [countStateChanges, Event.isStateChange] using h0
  · intro hs h1 h2
    have hc : ¬ (clampLevel L ≤ p.config.critThresholdD) := not_le.mpr h1
    have hl : clampLevel L ≤ p.config.lowThresholdD := h2
    simp [set_battery_level, critThreshold, lowThreshold, hc, hl, hs]

/-- C3 witness: the low-power transition from READY at level 15 notifies
with the post-transition snapshot. -/
theorem state_change_notifications_witness :
    (set_battery_level { Persona.init with state := SystemState.READY } 15).2 =
      [Event.warn ("LOW BATTERY: " ++ toString (15 : Int) ++ "% - Reducing features"),
       Event.stateChange
         (get_status (set_battery_level { Persona.init with state := SystemState.READY } 15).1)] :=
  (state_change_notifications { Persona.init with state := SystemState.READY }
      ConfigFile.absent noFaults 15).2.2.2.2 (by decide) (by decide) (by decide)

/-- C5: a single failing step other than load-dashboard appends exactly the
formatted message `"Error during \x27<step>\x27: <cause>"` to `errors`, the
pipeline continues (no step failure is fatal), `boot()` still returns true,
and the readiness flags of every other step are set. -/
theorem step_failure_not_fatal (file : ConfigFile) (s : Step) (cause : String)
    (h : s ≠ Step.loadDashboard) :
    (boot file (singleFault s cause) Persona.init).2.1 = true ∧
    (boot file (singleFault s cause) Persona.init).1.boot_status.errors =
      ["Error during \x27" ++ stepLabel s ++ "\x27: " ++ cause] ∧
    ∀ t : Step, t ≠ s → stepFlag (boot file (singleFault s cause) Persona.init).1 t = true := by
  cases s
  case loadDashboard => exact absurd rfl h
  all_goals
    refine ⟨by simp [boot, bootSteps, bootStep, runStep, pipeline, singleFault, Persona.init],
            by simp [boot, bootSteps, bootStep, runStep, pipeline, singleFault, Persona.init,
                     stepLabel],
            ?_⟩
  all_goals
    intro t ht
    cases t <;>
      simp_all [boot, bootSteps, bootStep, runStep, pipeline, singleFault, Persona.init, stepFlag]

/-- C5 witness: injected failure of the init-gps step. -/
theorem step_failure_not_fatal_witness :
    Step.initGps ≠ Step.loadDashboard ∧
    ((boot ConfigFile.absent (singleFault Step.initGps "gps down") Persona.init).2.1 = true ∧
     (boot ConfigFile.absent (singleFault Step.initGps "gps down") Persona.init).1.boot_status.errors =
       ["Error during \x27" ++ stepLabel Step.initGps ++ "\x27: " ++ "gps down"] ∧
     ∀ t : Step, t ≠ Step.initGps →
       stepFlag (boot ConfigFile.absent (singleFault Step.initGps "gps down") Persona.init).1 t =
         true) :=
  ⟨by decide, step_failure_not_fatal ConfigFile.absent Step.initGps "gps down" (by decide)⟩

/-- C7: a battery level whose clamped value is at or below the critical
threshold changes no state from any starting state: outside EMERGENCY the
only effect besides storing the level is the critical-battery warning; in
EMERGENCY not even the warning is logged.  No state-change notification is
delivered in either case. -/
theorem critical_battery_no_transition (p0 : Persona) (L : Int)
    (h : clampLevel L ≤ critThreshold p0) :
    (set_battery_level p0 L).1.state = p0.state ∧
    countStateChanges (set_battery_level p0 L).2 = 0 ∧
    (p0.state ≠ SystemState.EMERGENCY →
      (set_battery_level p0 L).2 =
        [Event.warn ("CRITICAL BATTERY: " ++ toString L ++ "% - Emergency beacon only")]) ∧
    (p0.state = SystemState.EMERGENCY → (set_battery_level p0 L).2 = []) := by
  have hc : clampLevel L ≤ p0.config.critThresholdD := h
  by_cases hs : p0.state = SystemState.EMERGENCY <;>
    simp [set_battery_level, critThreshold, lowThreshold, hc, hs,
      countStateChanges, Event.isStateChange]

/-- C7 witness: level 5 with the default critical threshold 10, from READY. -/
theorem critical_battery_no_transition_witness :
    clampLevel 5 ≤ critThreshold { Persona.init with state := SystemState.READY } ∧
    ((set_battery_level { Persona.init with state := SystemState.READY } 5).1.state =
       ({ Persona.init with state := SystemState.READY } : Persona).state ∧
     countStateChanges (set_battery_level { Persona.init with state := SystemState.READY } 5).2 = 0 ∧
     (({ Persona.init with state := SystemState.READY } : Persona).state ≠ SystemState.EMERGENCY →
       (set_battery_level { Persona.init with state := SystemState.READY } 5).2 =
         [Event.warn ("CRITICAL BATTERY: " ++ toString (5 : Int) ++ "% - Emergency beacon only")]) ∧
     (({ Persona.init with state := SystemState.READY } : Persona).state = SystemState.EMERGENCY →
       (set_battery_level { Persona.init with state := SystemState.READY } 5).2 = [])) :=
  ⟨by decide,
   critical_battery_no_transition { Persona.init with state := SystemState.READY } 5 (by decide)⟩

/-- C8: `_load_config` reports success on every file state — it is a total
function, so nothing is raised to the caller — and on an absent or
malformed (unparseable) file it substitutes the built-in default
configuration, under which every recognized key resolves to its documented
default (the power thresholds through the inline `.get` defaults 20/10). -/
theorem config_load_never_fails (f : ConfigFile) :
    (load_config f).2 = true ∧
    ((f = ConfigFile.absent ∨ f = ConfigFile.malformed) →
      (load_config f).1 = default_config) ∧
    default_config.lowThresholdD = 20 ∧
    default_config.critThresholdD = 10 ∧
    default_config.wakeWordsD = ["survival", "companion"] ∧
    default_config.system_persona_name = some "Survival Companion" ∧
    default_config.memory_max_ram_usage_mb = some 7500 ∧
    default_config.hardware_display_enabled = some true := by
  refine ⟨?_, ?_, rfl, rfl, rfl, rfl, rfl, rfl⟩
  · cases f <;> rfl
  · rintro (rfl | rfl) <;> rfl

/-- C8 witness: a malformed configuration file loads the defaults and
reports success. -/
theorem config_load_never_fails_witness :
    (ConfigFile.malformed = ConfigFile.absent ∨ ConfigFile.malformed = ConfigFile.malformed) ∧
    (load_config ConfigFile.malformed).2 = true ∧
    (load_config ConfigFile.malformed).1 = default_config :=
  ⟨Or.inr rfl, (config_load_never_fails ConfigFile.malformed).1,
   (config_load_never_fails ConfigFile.malformed).2.1 (Or.inr rfl)⟩

end Survival
